import Mathlib

/-!
Shallow embedding of `select_submatrix_smt_gradient.py` (repository
SidaWang12/SupervisedFineTuning) and proofs about its orchestration logic.

The script's external collaborators (`SMTTrainer`, `select_submatrix`, the
model/tokenizer/dataset constructors) are modelled as oracle parameters
gathered in the `Externals` structure; `main` is embedded as a pure function
from those oracles and an initial file system to an event trace plus the
final file system.  Python dictionaries are modelled as insertion-ordered
association lists (`PyDict`), with `dictInsert` implementing Python's
"update value in place, else append" assignment semantics, so that the
dict comprehensions `{str(k): v for k, v in d.items()}` of the source are
embedded faithfully by `stringifyKeys`.
-/

set_option autoImplicit false

namespace SMTScript

/-- `ModuleType` from `libs.block_libs.types_and_structs`: the two module
kinds the script selects sub-blocks for. -/
inductive ModuleType where
  | MLP
  | ATTENTION
  deriving DecidableEq, Repr

/-- `SMTTrainerMode` from `smt.trainers.smt_trainer`: the trainer's mode.
`SelectSubmatrixMode` is the "observe gradients" mode the script uses;
`TrainSelectedBlocksMode` stands for the "train only selected blocks" mode
that, per the spec, only the external collaborators ever switch to. -/
inductive SMTTrainerMode where
  | SelectSubmatrixMode
  | TrainSelectedBlocksMode
  deriving DecidableEq, Repr

/-- A Python dictionary as an insertion-ordered association list. -/
abbrev PyDict (K V : Type) : Type := List (K × V)

/-- Python dict assignment `d[k] = v`: if `k` is already a key the value is
replaced in place (keeping the entry's position and original key object);
otherwise the entry is appended at the end. -/
def dictInsert {K V : Type} [DecidableEq K] : PyDict K V → K → V → PyDict K V
  | [], k, v => [(k, v)]
  | (k', v') :: rest, k, v =>
      if k' = k then (k', v) :: rest else (k', v') :: dictInsert rest k v

/-- The keys of a dictionary, in insertion order. -/
def dictKeys {K V : Type} (d : PyDict K V) : List K := d.map Prod.fst

/-- Python dict lookup `d[k]` (first — and, for a well-formed dict, only —
entry with key `k`). -/
def dictGet {K V : Type} [DecidableEq K] : PyDict K V → K → Option V
  | [], _ => none
  | (k', v') :: rest, k => if k' = k then some v' else dictGet rest k

/-- The dict comprehension `{str(k): v for k, v in d.items()}`: a fold of
Python dict assignment over the entries in insertion order, with the keys
sent through `pyStr`. -/
def stringifyKeys {K V : Type} (pyStr : K → String) (d : PyDict K V) :
    PyDict String V :=
  d.foldl (fun acc kv => dictInsert acc (pyStr kv.1) kv.2) []

/-- Python's `str` applied to a value that is already a `str` returns it
unchanged; used for the outer comprehension over `combined`, whose keys are
string literals. -/
def pyStrOnString (s : String) : String := s

/-- Whether a string starts with `/`. -/
def startsWithSlash (s : String) : Bool :=
  match s.data with
  | [] => false
  | c :: _ => c = '/'

/-- Whether a string ends with `/`. -/
def endsWithSlash (s : String) : Bool :=
  match s.data.getLast? with
  | some c => c = '/'
  | none => false

/-- `os.path.join(a, b)` for the cases arising here: an absolute second
component wins, otherwise the components are joined with a single `/`
(no separator is doubled after a trailing `/`). -/
def os_path_join (a b : String) : String :=
  if startsWithSlash b then b
  else if a = "" then b
  else if endsWithSlash a then a ++ b
  else a ++ "/" ++ b

/-- The `ScriptArguments` fields `main` reads. -/
structure ScriptArgs where
  dataset_name : String
  dataset_config : String
  dataset_train_split : String
  deriving DecidableEq

/-- The fields of the training arguments (`PeftConfig`) that `main` reads. -/
structure TrainingArgs where
  downsample_mlp_blocks_ratio : Rat
  downsample_attention_blocks_ratio : Rat
  enable_analysis : Bool
  output_dir : String
  seed : Int
  test_set_percentage : Rat
  deriving DecidableEq

/-- The `ModelConfig` fields `main` reads. -/
structure ModelArgs where
  model_name_or_path : String
  model_revision : String
  trust_remote_code : Bool
  attn_implementation : String
  torch_dtype : String
  deriving DecidableEq

/-- The `model_kwargs` dictionary `main` builds from the model arguments. -/
structure ModelKwargs where
  revision : String
  trust_remote_code : Bool
  attn_implementation : String
  torch_dtype : String
  device_map : String
  deriving DecidableEq

/-- The dataset dictionary returned by `prepare_datasets`, with its
`"train"` and `"test"` splits. -/
structure Datasets (D : Type) where
  train : D
  test : D

/-- The external collaborators of the script, treated as oracles:
argument parsing, tokenizer/model/dataset construction, the `SMTTrainer`
(its constructor, `train`, and the attributes `main` reads afterwards),
`select_submatrix`, and Python's `str` on selection keys. -/
structure Externals (Tok Mdl D Trainer G K V : Type) where
  parse_args_and_config : ScriptArgs × TrainingArgs × ModelArgs
  load_and_configure_tokenizer : ModelArgs → Tok
  initialize_model : String → ModelKwargs → Mdl
  prepare_datasets : String → String → String → Int → Rat → Datasets D
  mkSMTTrainer : Mdl → TrainingArgs → D → D → Tok → SMTTrainerMode → Trainer
  train : Trainer → Trainer
  warmup_mlp_grads : Trainer → G
  warmup_attention_grads : Trainer → G
  global_step : Trainer → Nat
  select_submatrix : Mdl → G → Nat → Bool → String → Rat → ModuleType →
    PyDict K V
  pyStr : K → String

/-- The JSON object written to `selected_blocks.json`: string keys mapping
to string-keyed dictionaries of selection values. -/
abbrev JContent (V : Type) : Type := List (String × PyDict String V)

/-- The file system, mapping paths to the JSON content written there. -/
abbrev FS (V : Type) : Type := String → Option (JContent V)

/-- The observable steps of a run of `main`, in program order. -/
inductive Event (Mdl G V : Type) where
  | parseArgs
  | buildTokenizer
  | buildModel
  | buildDatasets
  | constructTrainer (mode : SMTTrainerMode)
  | trainCall
  | selectCall (model : Mdl) (grads : G) (step : Nat) (enable_analysis : Bool)
      (output_dir : String) (ratio : Rat) (module_type : ModuleType)
  | fileWrite (path : String) (content : JContent V)
  deriving DecidableEq

/-- The result of `save_selected_submatrix`: the (unchanged) argument
dictionaries as the function leaves them, the serialized JSON object, and
the file system after the write. -/
structure SaveRun (K V : Type) where
  mlpAfter : PyDict K V
  attentionAfter : PyDict K V
  dumped : JContent V
  fsAfter : FS V

/-- `save_selected_submatrix(selected_mlp_submatrix,
selected_attention_submatrix, submatrix_file_path)`: builds `combined` with
the two string-literal keys, each mapped to the key-stringified input
dictionary, then `json.dump`s `{str(k): v for k, v in combined.items()}`
to the file at `submatrix_file_path`. -/
def save_selected_submatrix {K V : Type} (pyStr : K → String)
    (selected_mlp_submatrix selected_attention_submatrix : PyDict K V)
    (submatrix_file_path : String) (fs : FS V) : SaveRun K V :=
  let combined : JContent V :=
    [("selected_mlp_submatrix", stringifyKeys pyStr selected_mlp_submatrix),
     ("selected_attention_submatrix",
       stringifyKeys pyStr selected_attention_submatrix)]
  let dumped := stringifyKeys pyStrOnString combined
  ⟨selected_mlp_submatrix, selected_attention_submatrix, dumped,
   fun p => if p = submatrix_file_path then some dumped else fs p⟩

/-- The result of a run of `main`: its event trace and the final file
system. -/
structure MainRun (Mdl G V : Type) where
  trace : List (Event Mdl G V)
  fsAfter : FS V

/-- The body of `main`, translated line by line; logging and FLOPs
profiling are not observable events of the model. -/
def main {Tok Mdl D Trainer G K V : Type} [DecidableEq K]
    (ext : Externals Tok Mdl D Trainer G K V) (fs : FS V) : MainRun Mdl G V :=
  let script_args := ext.parse_args_and_config.1
  let training_args := ext.parse_args_and_config.2.1
  let model_args := ext.parse_args_and_config.2.2
  let model_kwargs : ModelKwargs :=
    ⟨model_args.model_revision, model_args.trust_remote_code,
     model_args.attn_implementation, model_args.torch_dtype, "auto"⟩
  let tokenizer := ext.load_and_configure_tokenizer model_args
  let model := ext.initialize_model model_args.model_name_or_path model_kwargs
  let datasets := ext.prepare_datasets script_args.dataset_name
    script_args.dataset_config script_args.dataset_train_split
    training_args.seed training_args.test_set_percentage
  let trainer0 := ext.mkSMTTrainer model training_args datasets.train
    datasets.test tokenizer SMTTrainerMode.SelectSubmatrixMode
  let trainer := ext.train trainer0
  let selected_mlp_submatrix : PyDict K V :=
    if training_args.downsample_mlp_blocks_ratio ≥ 0 then
      ext.select_submatrix model (ext.warmup_mlp_grads trainer)
        (ext.global_step trainer) training_args.enable_analysis
        training_args.output_dir training_args.downsample_mlp_blocks_ratio
        ModuleType.MLP
    else []
  let mlpEvents : List (Event Mdl G V) :=
    if training_args.downsample_mlp_blocks_ratio ≥ 0 then
      [Event.selectCall model (ext.warmup_mlp_grads trainer)
        (ext.global_step trainer) training_args.enable_analysis
        training_args.output_dir training_args.downsample_mlp_blocks_ratio
        ModuleType.MLP]
    else []
  let selected_attention_submatrix : PyDict K V :=
    if training_args.downsample_attention_blocks_ratio ≥ 0 then
      ext.select_submatrix model (ext.warmup_attention_grads trainer)
        (ext.global_step trainer) training_args.enable_analysis
        training_args.output_dir
        training_args.downsample_attention_blocks_ratio ModuleType.ATTENTION
    else []
  let attentionEvents : List (Event Mdl G V) :=
    if training_args.downsample_attention_blocks_ratio ≥ 0 then
      [Event.selectCall model (ext.warmup_attention_grads trainer)
        (ext.global_step trainer) training_args.enable_analysis
        training_args.output_dir
        training_args.downsample_attention_blocks_ratio ModuleType.ATTENTION]
    else []
  let submatrix_file_path :=
    os_path_join training_args.output_dir "selected_blocks.json"
  let saved := save_selected_submatrix ext.pyStr selected_mlp_submatrix
    selected_attention_submatrix submatrix_file_path fs
  ⟨[Event.parseArgs, Event.buildTokenizer, Event.buildModel,
    Event.buildDatasets,
    Event.constructTrainer SMTTrainerMode.SelectSubmatrixMode,
    Event.trainCall]
     ++ mlpEvents ++ attentionEvents
     ++ [Event.fileWrite submatrix_file_path saved.dumped],
   saved.fsAfter⟩

section Helpers

variable {Tok Mdl D Trainer G K V : Type} [DecidableEq K]

/-- The training arguments a run of `main` parses. -/
def targsOf (ext : Externals Tok Mdl D Trainer G K V) : TrainingArgs :=
  ext.parse_args_and_config.2.1

/-- The model a run of `main` constructs. -/
def modelOf (ext : Externals Tok Mdl D Trainer G K V) : Mdl :=
  ext.initialize_model ext.parse_args_and_config.2.2.model_name_or_path
    ⟨ext.parse_args_and_config.2.2.model_revision,
     ext.parse_args_and_config.2.2.trust_remote_code,
     ext.parse_args_and_config.2.2.attn_implementation,
     ext.parse_args_and_config.2.2.torch_dtype, "auto"⟩

/-- The trainer after `trainer.train()` has returned, whose accumulated
warm-up gradients and global step `main` reads. -/
def trainerOf (ext : Externals Tok Mdl D Trainer G K V) : Trainer :=
  ext.train (ext.mkSMTTrainer (modelOf ext) (targsOf ext)
    (ext.prepare_datasets ext.parse_args_and_config.1.dataset_name
      ext.parse_args_and_config.1.dataset_config
      ext.parse_args_and_config.1.dataset_train_split
      (targsOf ext).seed (targsOf ext).test_set_percentage).train
    (ext.prepare_datasets ext.parse_args_and_config.1.dataset_name
      ext.parse_args_and_config.1.dataset_config
      ext.parse_args_and_config.1.dataset_train_split
      (targsOf ext).seed (targsOf ext).test_set_percentage).test
    (ext.load_and_configure_tokenizer ext.parse_args_and_config.2.2)
    SMTTrainerMode.SelectSubmatrixMode)

/-- The MLP selection a run of `main` computes (empty when skipped). -/
def selectedMlpOf (ext : Externals Tok Mdl D Trainer G K V) : PyDict K V :=
  if (targsOf ext).downsample_mlp_blocks_ratio ≥ 0 then
    ext.select_submatrix (modelOf ext) (ext.warmup_mlp_grads (trainerOf ext))
      (ext.global_step (trainerOf ext)) (targsOf ext).enable_analysis
      (targsOf ext).output_dir (targsOf ext).downsample_mlp_blocks_ratio
      ModuleType.MLP
  else []

/-- The attention selection a run of `main` computes (empty when
skipped). -/
def selectedAttentionOf (ext : Externals Tok Mdl D Trainer G K V) :
    PyDict K V :=
  if (targsOf ext).downsample_attention_blocks_ratio ≥ 0 then
    ext.select_submatrix (modelOf ext)
      (ext.warmup_attention_grads (trainerOf ext))
      (ext.global_step (trainerOf ext)) (targsOf ext).enable_analysis
      (targsOf ext).output_dir
      (targsOf ext).downsample_attention_blocks_ratio ModuleType.ATTENTION
  else []

/-- The path `main` writes the selection file to. -/
def filePathOf (ext : Externals Tok Mdl D Trainer G K V) : String :=
  os_path_join (targsOf ext).output_dir "selected_blocks.json"

/-- The JSON object a run of `main` serializes. -/
def dumpedOf (ext : Externals Tok Mdl D Trainer G K V) : JContent V :=
  (save_selected_submatrix ext.pyStr (selectedMlpOf ext)
    (selectedAttentionOf ext) (filePathOf ext) (fun _ => none)).dumped

/-- Unfolding of a run of `main`: its trace and final file system written
out in terms of the helper definitions above. -/
theorem main_run_eq (ext : Externals Tok Mdl D Trainer G K V) (fs : FS V) :
    main ext fs =
      ⟨[Event.parseArgs, Event.buildTokenizer, Event.buildModel,
        Event.buildDatasets,
        Event.constructTrainer SMTTrainerMode.SelectSubmatrixMode,
        Event.trainCall]
         ++ (if (targsOf ext).downsample_mlp_blocks_ratio ≥ 0 then
              [Event.selectCall (modelOf ext)
                (ext.warmup_mlp_grads (trainerOf ext))
                (ext.global_step (trainerOf ext))
                (targsOf ext).enable_analysis (targsOf ext).output_dir
                (targsOf ext).downsample_mlp_blocks_ratio ModuleType.MLP]
             else [])
         ++ (if (targsOf ext).downsample_attention_blocks_ratio ≥ 0 then
              [Event.selectCall (modelOf ext)
                (ext.warmup_attention_grads (trainerOf ext))
                (ext.global_step (trainerOf ext))
                (targsOf ext).enable_analysis (targsOf ext).output_dir
                (targsOf ext).downsample_attention_blocks_ratio
                ModuleType.ATTENTION]
             else [])
         ++ [Event.fileWrite (filePathOf ext) (dumpedOf ext)],
       fun p => if p = filePathOf ext then some (dumpedOf ext) else fs p⟩ :=
  rfl

end Helpers

section DictLemmas

variable {K V : Type} [DecidableEq K]

theorem dictInsert_of_not_mem {d : PyDict K V} {k : K} (v : V)
    (h : k ∉ dictKeys d) : dictInsert d k v = d ++ [(k, v)] := by
  induction d with
  | nil => rfl
  | cons kv rest ih =>
      obtain ⟨k', v'⟩ := kv
      simp only [dictKeys, List.map_cons, List.mem_cons] at h
      push_neg at h
      have hne : ¬ k' = k := fun hk => h.1 hk.symm
      simp only [dictInsert, if_neg hne, List.cons_append, List.cons.injEq,
        true_and]
      exact ih h.2

theorem dictKeys_dictInsert (d : PyDict K V) (k : K) (v : V) :
    dictKeys (dictInsert d k v) =
      if k ∈ dictKeys d then dictKeys d else dictKeys d ++ [k] := by
  induction d with
  | nil => rfl
  | cons kv rest ih =>
      obtain ⟨k', v'⟩ := kv
      by_cases hk : k' = k
      · subst hk
        simp [dictInsert, dictKeys]
      · simp only [dictInsert, if_neg hk, dictKeys, List.map_cons,
          List.mem_cons]
        have : ¬ k = k' := fun h => hk h.symm
        simp only [dictKeys] at ih
        rw [ih]
        by_cases hmem : k ∈ List.map Prod.fst rest <;> simp [hmem, this]

theorem nodup_dictKeys_dictInsert {d : PyDict K V} (k : K) (v : V)
    (h : (dictKeys d).Nodup) : (dictKeys (dictInsert d k v)).Nodup := by
  rw [dictKeys_dictInsert]
  by_cases hmem : k ∈ dictKeys d
  · simpa [hmem]
  · simpa [hmem, List.nodup_append] using h

/-- The comprehension fold, with an arbitrary accumulator: when the
stringified keys of `d` are pairwise distinct and fresh for the
accumulator, every insertion appends. -/
theorem stringify_foldl_eq_append {W : Type} (pyStr : W → String)
    (d : List (W × V)) :
    ∀ acc : PyDict String V,
      (d.map fun kv => pyStr kv.1).Nodup →
      (∀ kv ∈ d, pyStr kv.1 ∉ dictKeys acc) →
      d.foldl (fun a kv => dictInsert a (pyStr kv.1) kv.2) acc =
        acc ++ d.map fun kv => (pyStr kv.1, kv.2) := by
  induction d with
  | nil => intro acc _ _; simp
  | cons kv rest ih =>
      intro acc hnodup hfresh
      obtain ⟨k, v⟩ := kv
      simp only [List.map_cons, List.nodup_cons] at hnodup
      simp only [List.foldl_cons]
      rw [dictInsert_of_not_mem v (hfresh (k, v) (List.mem_cons_self _ _))]
      rw [ih (acc ++ [(pyStr k, v)]) hnodup.2 ?_]
      · simp
      · intro kv' hkv'
        simp only [dictKeys, List.map_append, List.mem_append]
        push_neg
        refine ⟨hfresh kv' (List.mem_cons_of_mem _ hkv'), ?_⟩
        simp only [List.map_cons, List.map_nil, List.mem_singleton]
        intro hc
        exact hnodup.1 (hc ▸ List.mem_map_of_mem (fun p => pyStr p.1) hkv')

/-- When the stringified keys are pairwise distinct, the comprehension
keeps every entry, in order, with the key stringified and the value
unchanged. -/
theorem stringifyKeys_eq_map {W : Type} (pyStr : W → String)
    (d : List (W × V)) (h : (d.map fun kv => pyStr kv.1).Nodup) :
    stringifyKeys pyStr d = d.map fun kv => (pyStr kv.1, kv.2) := by
  have := stringify_foldl_eq_append pyStr d [] h (by intro kv _; simp [dictKeys])
  simpa [stringifyKeys] using this

/-- The comprehension fold preserves key-nodupness of the accumulator. -/
theorem nodup_dictKeys_foldl {W : Type} (pyStr : W → String)
    (d : List (W × V)) :
    ∀ acc : PyDict String V, (dictKeys acc).Nodup →
      (dictKeys
        (d.foldl (fun a kv => dictInsert a (pyStr kv.1) kv.2) acc)).Nodup := by
  induction d with
  | nil => intro acc h; simpa
  | cons kv rest ih =>
      intro acc h
      simp only [List.foldl_cons]
      exact ih _ (nodup_dictKeys_dictInsert _ _ h)

/-- The output of the comprehension never has duplicate keys. -/
theorem nodup_dictKeys_stringifyKeys {W : Type} (pyStr : W → String)
    (d : List (W × V)) : (dictKeys (stringifyKeys pyStr d)).Nodup :=
  nodup_dictKeys_foldl pyStr d [] (by simp [dictKeys])

/-- At most one output entry per string key. -/
theorem countP_stringifyKeys_le_one {W : Type} (pyStr : W → String)
    (d : List (W × V)) (s : String) :
    (stringifyKeys pyStr d).countP (fun kv => kv.1 = s) ≤ 1 := by
  have hnodup := nodup_dictKeys_stringifyKeys pyStr d
  have hcount : (stringifyKeys pyStr d).countP (fun kv => kv.1 = s) =
      (dictKeys (stringifyKeys pyStr d)).count s := by
    simp only [dictKeys, List.count, List.countP_map]
    rfl
  rw [hcount]
  exact List.nodup_iff_count_le_one.mp hnodup s

end DictLemmas

/-- The stage of `main` an event belongs to, for the temporal claim. -/
inductive Stage where
  | parse
  | tokenizer
  | model
  | datasets
  | trainerInit
  | train
  | select
  | save
  deriving DecidableEq

/-- Abstraction of events to stages. -/
def stageOf {Mdl G V : Type} : Event Mdl G V → Stage
  | Event.parseArgs => Stage.parse
  | Event.buildTokenizer => Stage.tokenizer
  | Event.buildModel => Stage.model
  | Event.buildDatasets => Stage.datasets
  | Event.constructTrainer _ => Stage.trainerInit
  | Event.trainCall => Stage.train
  | Event.selectCall _ _ _ _ _ _ _ => Stage.select
  | Event.fileWrite _ _ => Stage.save

section ContentLemmas

variable {V : Type}

/-- The outer comprehension `{str(k): v for k, v in combined.items()}` is
the identity on `combined`: its two keys are distinct string literals and
`str` on a `str` is the identity. -/
theorem stringify_combined_eq (x y : PyDict String V) :
    stringifyKeys pyStrOnString
        [("selected_mlp_submatrix", x), ("selected_attention_submatrix", y)] =
      [("selected_mlp_submatrix", x), ("selected_attention_submatrix", y)] := by
  have h : ¬ ("selected_mlp_submatrix" : String) = "selected_attention_submatrix" := by
    decide
  simp [stringifyKeys, dictInsert, pyStrOnString, h]

/-- The JSON object `save_selected_submatrix` serializes, written out. -/
theorem save_dumped_eq {K : Type} (pyStr : K → String)
    (mlp att : PyDict K V) (path : String) (fs : FS V) :
    (save_selected_submatrix pyStr mlp att path fs).dumped =
      [("selected_mlp_submatrix", stringifyKeys pyStr mlp),
       ("selected_attention_submatrix", stringifyKeys pyStr att)] := by
  simp [save_selected_submatrix, stringify_combined_eq]

/-- The JSON object a run of `main` serializes, written out. -/
theorem dumpedOf_eq {Tok Mdl D Trainer G K : Type} [DecidableEq K]
    (ext : Externals Tok Mdl D Trainer G K V) :
    dumpedOf ext =
      [("selected_mlp_submatrix", stringifyKeys ext.pyStr (selectedMlpOf ext)),
       ("selected_attention_submatrix",
         stringifyKeys ext.pyStr (selectedAttentionOf ext))] :=
  save_dumped_eq ext.pyStr (selectedMlpOf ext) (selectedAttentionOf ext)
    (filePathOf ext) (fun _ => none)

end ContentLemmas

section TraceLemmas

variable {Tok Mdl D Trainer G K V : Type} [DecidableEq K]

/-- Characterization of the events of a run of `main`. -/
theorem mem_trace_iff (ext : Externals Tok Mdl D Trainer G K V) (fs : FS V)
    (e : Event Mdl G V) :
    e ∈ (main ext fs).trace ↔
      e = Event.parseArgs ∨ e = Event.buildTokenizer ∨ e = Event.buildModel ∨
      e = Event.buildDatasets ∨
      e = Event.constructTrainer SMTTrainerMode.SelectSubmatrixMode ∨
      e = Event.trainCall ∨
      ((targsOf ext).downsample_mlp_blocks_ratio ≥ 0 ∧
        e = Event.selectCall (modelOf ext)
          (ext.warmup_mlp_grads (trainerOf ext))
          (ext.global_step (trainerOf ext)) (targsOf ext).enable_analysis
          (targsOf ext).output_dir (targsOf ext).downsample_mlp_blocks_ratio
          ModuleType.MLP) ∨
      ((targsOf ext).downsample_attention_blocks_ratio ≥ 0 ∧
        e = Event.selectCall (modelOf ext)
          (ext.warmup_attention_grads (trainerOf ext))
          (ext.global_step (trainerOf ext)) (targsOf ext).enable_analysis
          (targsOf ext).output_dir
          (targsOf ext).downsample_attention_blocks_ratio
          ModuleType.ATTENTION) ∨
      e = Event.fileWrite (filePathOf ext) (dumpedOf ext) := by
  rw [main_run_eq]
  simp only [List.mem_append, List.mem_cons, List.mem_singleton,
    List.not_mem_nil, or_false]
  by_cases h1 : (targsOf ext).downsample_mlp_blocks_ratio ≥ 0 <;>
    by_cases h2 : (targsOf ext).downsample_attention_blocks_ratio ≥ 0 <;>
      simp [h1, h2] <;> tauto

end TraceLemmas

section SaveClaims

variable {K V : Type}

/-- C7: `save_selected_submatrix` stringifies dictionary keys with `str`
before serialization: when the keys of an input dictionary have pairwise
distinct string representations, the serialized inner mapping under that
dictionary's key holds exactly one entry `(str k, v)` for each entry
`(k, v)` of the input, in order, with no value lost; in every case there is
at most one output entry per string key, and two distinct keys with the
same string representation collapse to a single entry (keeping the last
value). -/
theorem save_selected_submatrix_stringifies_keys (pyStr : K → String)
    (mlp att : PyDict K V) (path : String) (fs : FS V) :
    ((mlp.map fun kv => pyStr kv.1).Nodup →
      dictGet (save_selected_submatrix pyStr mlp att path fs).dumped
          "selected_mlp_submatrix" =
        some (mlp.map fun kv => (pyStr kv.1, kv.2))) ∧
    ((att.map fun kv => pyStr kv.1).Nodup →
      dictGet (save_selected_submatrix pyStr mlp att path fs).dumped
          "selected_attention_submatrix" =
        some (att.map fun kv => (pyStr kv.1, kv.2))) ∧
    (∀ s, (stringifyKeys pyStr mlp).countP (fun kv => kv.1 = s) ≤ 1) ∧
    (∀ (k1 : K) (v1 : V) (k2 : K) (v2 : V), k1 ≠ k2 → pyStr k1 = pyStr k2 →
      stringifyKeys pyStr [(k1, v1), (k2, v2)] = [(pyStr k1, v2)]) := by
  refine ⟨?_, ?_, countP_stringifyKeys_le_one pyStr mlp, ?_⟩
  · intro h
    rw [save_dumped_eq, stringifyKeys_eq_map pyStr mlp h]
    simp [dictGet]
  · intro h
    rw [save_dumped_eq, stringifyKeys_eq_map pyStr att h]
    have hne : ¬ ("selected_mlp_submatrix" : String) = "selected_attention_submatrix" := by
      decide
    simp [dictGet, hne]
  · intro k1 v1 k2 v2 _ hstr
    simp [stringifyKeys, dictInsert, hstr]

/-- C7 witness. -/
theorem save_selected_submatrix_stringifies_keys_witness :
    dictGet
        (save_selected_submatrix toString [(1, 10), (2, 20)] [(3, 30)] "p"
          (fun _ => (none : Option (JContent Nat)))).dumped
        "selected_mlp_submatrix" =
      some ([((1 : Nat), (10 : Nat)), (2, 20)].map fun kv =>
        (toString kv.1, kv.2)) ∧
    stringifyKeys (fun _ : Nat => "x") [(1, 10), (2, 20)] =
      [((fun _ : Nat => "x") 1, (20 : Nat))] :=
  ⟨(save_selected_submatrix_stringifies_keys toString [(1, 10), (2, 20)]
      [(3, 30)] "p" (fun _ => none)).1 (by decide),
   (save_selected_submatrix_stringifies_keys (fun _ : Nat => "x") []
      ([] : PyDict Nat Nat) "p" (fun _ => none)).2.2.2 1 10 2 20 (by decide)
      rfl⟩

/-- C8: `save_selected_submatrix` does not mutate its arguments: both
input dictionaries are unchanged after the call, and the only file-system
change is the write at `submatrix_file_path`. -/
theorem save_selected_submatrix_no_mutation (pyStr : K → String)
    (mlp att : PyDict K V) (path : String) (fs : FS V) :
    (save_selected_submatrix pyStr mlp att path fs).mlpAfter = mlp ∧
    (save_selected_submatrix pyStr mlp att path fs).attentionAfter = att ∧
    (∀ p, p ≠ path →
      (save_selected_submatrix pyStr mlp att path fs).fsAfter p = fs p) ∧
    (save_selected_submatrix pyStr mlp att path fs).fsAfter path =
      some (save_selected_submatrix pyStr mlp att path fs).dumped := by
  refine ⟨rfl, rfl, ?_, by simp [save_selected_submatrix]⟩
  intro p hp
  simp [save_selected_submatrix, hp]

/-- C8 witness. -/
theorem save_selected_submatrix_no_mutation_witness :
    (save_selected_submatrix toString [((1 : Nat), (10 : Nat))] [(2, 20)] "p"
      (fun _ => none)).mlpAfter = [(1, 10)] ∧
    (save_selected_submatrix toString [((1 : Nat), (10 : Nat))] [(2, 20)] "p"
      (fun _ => (none : Option (JContent Nat)))).fsAfter "q" = none :=
  ⟨(save_selected_submatrix_no_mutation toString [(1, 10)] [(2, 20)] "p"
      (fun _ => none)).1,
   (save_selected_submatrix_no_mutation toString [(1, 10)] [(2, 20)] "p"
      (fun _ => none)).2.2.1 "q" (by decide)⟩

end SaveClaims

section Demo

/-- A concrete instantiation of the external collaborators for witnessing:
both downsample ratios are nonnegative. -/
def extDemo : Externals Unit Unit Unit Unit Unit Nat Nat :=
  ⟨(⟨"ds", "cfg", "train"⟩,
    ⟨1, 2, true, "out", 0, 0⟩,
    ⟨"mdl", "rev", false, "eager", "bf16"⟩),
   fun _ => (), fun _ _ => (), fun _ _ _ _ _ => ⟨(), ()⟩,
   fun _ _ _ _ _ _ => (), fun t => t, fun _ => (), fun _ => (),
   fun _ => 3,
   fun _ _ step _ _ _ mt =>
     match mt with
     | ModuleType.MLP => [(0, 1)]
     | ModuleType.ATTENTION => [(2, step)],
   fun n => toString n⟩

/-- A concrete instantiation with a negative MLP downsample ratio. -/
def extDemoNeg : Externals Unit Unit Unit Unit Unit Nat Nat :=
  ⟨(⟨"ds", "cfg", "train"⟩,
    ⟨-1, 2, true, "out", 0, 0⟩,
    ⟨"mdl", "rev", false, "eager", "bf16"⟩),
   fun _ => (), fun _ _ => (), fun _ _ _ _ _ => ⟨(), ()⟩,
   fun _ _ _ _ _ _ => (), fun t => t, fun _ => (), fun _ => (),
   fun _ => 3,
   fun _ _ step _ _ _ mt =>
     match mt with
     | ModuleType.MLP => [(0, 1)]
     | ModuleType.ATTENTION => [(2, step)],
   fun n => toString n⟩

/-- An empty initial file system for witnessing. -/
def fsDemo : FS Nat := fun _ => none

end Demo

section MainClaims

variable {Tok Mdl D Trainer G K V : Type} [DecidableEq K]

/-- Every `fileWrite` event of a run of `main` is the one write to the
selection file. -/
theorem fileWrite_mem (ext : Externals Tok Mdl D Trainer G K V) (fs : FS V)
    (p : String) (c : JContent V)
    (h : Event.fileWrite p c ∈ (main ext fs).trace) :
    p = filePathOf ext ∧ c = dumpedOf ext := by
  rw [mem_trace_iff] at h
  rcases h with h | h | h | h | h | h | ⟨_, h⟩ | ⟨_, h⟩ | h
  · exact Event.noConfusion h
  · exact Event.noConfusion h
  · exact Event.noConfusion h
  · exact Event.noConfusion h
  · exact Event.noConfusion h
  · exact Event.noConfusion h
  · exact Event.noConfusion h
  · exact Event.noConfusion h
  · injection h with h1 h2
    exact ⟨h1, h2⟩

/-- C1: `main` routes the trainer's warm-up MLP gradients, its global step
and the MLP downsample ratio to the MLP selection (module type `MLP`), and
the warm-up attention gradients, the same global step and the attention
downsample ratio to the attention selection (module type `ATTENTION`);
every selection event for a module type carries that module type's own
gradients and ratio, never the other's. -/
theorem main_routes_select_arguments
    (ext : Externals Tok Mdl D Trainer G K V) (fs : FS V) :
    ((targsOf ext).downsample_mlp_blocks_ratio ≥ 0 →
      Event.selectCall (modelOf ext) (ext.warmup_mlp_grads (trainerOf ext))
        (ext.global_step (trainerOf ext)) (targsOf ext).enable_analysis
        (targsOf ext).output_dir (targsOf ext).downsample_mlp_blocks_ratio
        ModuleType.MLP ∈ (main ext fs).trace) ∧
    ((targsOf ext).downsample_attention_blocks_ratio ≥ 0 →
      Event.selectCall (modelOf ext)
        (ext.warmup_attention_grads (trainerOf ext))
        (ext.global_step (trainerOf ext)) (targsOf ext).enable_analysis
        (targsOf ext).output_dir
        (targsOf ext).downsample_attention_blocks_ratio
        ModuleType.ATTENTION ∈ (main ext fs).trace) ∧
    (∀ (mdl : Mdl) (g : G) (s : Nat) (en : Bool) (od : String) (r : Rat),
      Event.selectCall mdl g s en od r ModuleType.MLP ∈ (main ext fs).trace →
        g = ext.warmup_mlp_grads (trainerOf ext) ∧
        s = ext.global_step (trainerOf ext) ∧
        r = (targsOf ext).downsample_mlp_blocks_ratio) ∧
    (∀ (mdl : Mdl) (g : G) (s : Nat) (en : Bool) (od : String) (r : Rat),
      Event.selectCall mdl g s en od r ModuleType.ATTENTION ∈
          (main ext fs).trace →
        g = ext.warmup_attention_grads (trainerOf ext) ∧
        s = ext.global_step (trainerOf ext) ∧
        r = (targsOf ext).downsample_attention_blocks_ratio) := by
  refine ⟨?_, ?_, ?_, ?_⟩
  · intro h
    rw [mem_trace_iff]
    exact Or.inr (Or.inr (Or.inr (Or.inr (Or.inr (Or.inr (Or.inl ⟨h, rfl⟩))))))
  · intro h
    rw [mem_trace_iff]
    exact Or.inr (Or.inr (Or.inr (Or.inr (Or.inr (Or.inr (Or.inr
      (Or.inl ⟨h, rfl⟩)))))))
  · intro mdl g s en od r hmem
    rw [mem_trace_iff] at hmem
    rcases hmem with h | h | h | h | h | h | ⟨_, h⟩ | ⟨_, h⟩ | h
    · exact Event.noConfusion h
    · exact Event.noConfusion h
    · exact Event.noConfusion h
    · exact Event.noConfusion h
    · exact Event.noConfusion h
    · exact Event.noConfusion h
    · injection h with h1 h2 h3 h4 h5 h6 h7
      exact ⟨h2, h3, h6⟩
    · injection h with h1 h2 h3 h4 h5 h6 h7
      exact ModuleType.noConfusion h7
    · exact Event.noConfusion h
  · intro mdl g s en od r hmem
    rw [mem_trace_iff] at hmem
    rcases hmem with h | h | h | h | h | h | ⟨_, h⟩ | ⟨_, h⟩ | h
    · exact Event.noConfusion h
    · exact Event.noConfusion h
    · exact Event.noConfusion h
    · exact Event.noConfusion h
    · exact Event.noConfusion h
    · exact Event.noConfusion h
    · injection h with h1 h2 h3 h4 h5 h6 h7
      exact ModuleType.noConfusion h7
    · injection h with h1 h2 h3 h4 h5 h6 h7
      exact ⟨h2, h3, h6⟩
    · exact Event.noConfusion h

/-- C1 witness. -/
theorem main_routes_select_arguments_witness :
    (Event.selectCall (modelOf extDemo)
      (extDemo.warmup_mlp_grads (trainerOf extDemo))
      (extDemo.global_step (trainerOf extDemo))
      (targsOf extDemo).enable_analysis (targsOf extDemo).output_dir
      (targsOf extDemo).downsample_mlp_blocks_ratio ModuleType.MLP ∈
        (main extDemo fsDemo).trace) ∧
    (extDemo.warmup_mlp_grads (trainerOf extDemo) =
        extDemo.warmup_mlp_grads (trainerOf extDemo) ∧
      extDemo.global_step (trainerOf extDemo) =
        extDemo.global_step (trainerOf extDemo) ∧
      (targsOf extDemo).downsample_mlp_blocks_ratio =
        (targsOf extDemo).downsample_mlp_blocks_ratio) := by
  have h := main_routes_select_arguments extDemo fsDemo
  exact ⟨h.1 (by decide), h.2.2.1 _ _ _ _ _ _ (h.1 (by decide))⟩

/-- C3: the stages of a run of `main` occur in the order the spec lists,
each of parsing, tokenizer, model and dataset construction, trainer
instantiation, training and serialization exactly once, with at most two
selection calls, all of which occur after `trainer.train()` has returned
and before serialization. -/
theorem main_stage_order (ext : Externals Tok Mdl D Trainer G K V)
    (fs : FS V) :
    ∃ n, n ≤ 2 ∧
      (main ext fs).trace.map stageOf =
        [Stage.parse, Stage.tokenizer, Stage.model, Stage.datasets,
         Stage.trainerInit, Stage.train] ++
          List.replicate n Stage.select ++ [Stage.save] := by
  refine ⟨(if (targsOf ext).downsample_mlp_blocks_ratio ≥ 0 then 1 else 0) +
    (if (targsOf ext).downsample_attention_blocks_ratio ≥ 0 then 1 else 0),
    ?_, ?_⟩
  · split_ifs <;> norm_num
  · rw [main_run_eq]
    by_cases h1 : (targsOf ext).downsample_mlp_blocks_ratio ≥ 0 <;>
      by_cases h2 : (targsOf ext).downsample_attention_blocks_ratio ≥ 0 <;>
        simp [h1, h2, stageOf, List.replicate]

/-- C4: `main` constructs the trainer in the "observe gradients" mode
`SMTTrainerMode.SelectSubmatrixMode`, and no trainer-construction event of
any run carries any other mode. -/
theorem main_trainer_mode (ext : Externals Tok Mdl D Trainer G K V)
    (fs : FS V) :
    (∀ m : SMTTrainerMode,
      Event.constructTrainer m ∈
          ((main ext fs).trace : List (Event Mdl G V)) →
        m = SMTTrainerMode.SelectSubmatrixMode) ∧
    (Event.constructTrainer SMTTrainerMode.SelectSubmatrixMode ∈
      ((main ext fs).trace : List (Event Mdl G V))) := by
  constructor
  · intro m hm
    rw [mem_trace_iff] at hm
    rcases hm with h | h | h | h | h | h | ⟨_, h⟩ | ⟨_, h⟩ | h
    · exact Event.noConfusion h
    · exact Event.noConfusion h
    · exact Event.noConfusion h
    · exact Event.noConfusion h
    · injection h with h1
    · exact Event.noConfusion h
    · exact Event.noConfusion h
    · exact Event.noConfusion h
    · exact Event.noConfusion h
  · rw [mem_trace_iff]
    exact Or.inr (Or.inr (Or.inr (Or.inr (Or.inl rfl))))

/-- C4 witness. -/
theorem main_trainer_mode_witness :
    SMTTrainerMode.SelectSubmatrixMode = SMTTrainerMode.SelectSubmatrixMode :=
  (main_trainer_mode extDemo fsDemo).1 SMTTrainerMode.SelectSubmatrixMode
    (main_trainer_mode extDemo fsDemo).2

/-- C2: every run of `main` that reaches serialization writes exactly one
file, at `os.path.join(training_args.output_dir, "selected_blocks.json")`,
whose content is a single JSON object with exactly the two keys
`"selected_mlp_submatrix"` and `"selected_attention_submatrix"`, mapped to
the string-keyed MLP and attention selections respectively. -/
theorem main_writes_selected_blocks_json
    (ext : Externals Tok Mdl D Trainer G K V) (fs : FS V) :
    (Event.fileWrite
        (os_path_join (targsOf ext).output_dir "selected_blocks.json")
        [("selected_mlp_submatrix",
           stringifyKeys ext.pyStr (selectedMlpOf ext)),
         ("selected_attention_submatrix",
           stringifyKeys ext.pyStr (selectedAttentionOf ext))] ∈
      (main ext fs).trace) ∧
    (∀ (p : String) (c : JContent V),
      Event.fileWrite p c ∈ (main ext fs).trace →
        p = os_path_join (targsOf ext).output_dir "selected_blocks.json" ∧
        c = [("selected_mlp_submatrix",
               stringifyKeys ext.pyStr (selectedMlpOf ext)),
             ("selected_attention_submatrix",
               stringifyKeys ext.pyStr (selectedAttentionOf ext))]) ∧
    ((main ext fs).fsAfter
        (os_path_join (targsOf ext).output_dir "selected_blocks.json") =
      some [("selected_mlp_submatrix",
              stringifyKeys ext.pyStr (selectedMlpOf ext)),
            ("selected_attention_submatrix",
              stringifyKeys ext.pyStr (selectedAttentionOf ext))]) ∧
    (∀ p : String,
      p ≠ os_path_join (targsOf ext).output_dir "selected_blocks.json" →
        (main ext fs).fsAfter p = fs p) ∧
    (([("selected_mlp_submatrix",
         stringifyKeys ext.pyStr (selectedMlpOf ext)),
       ("selected_attention_submatrix",
         stringifyKeys ext.pyStr (selectedAttentionOf ext))] :
        JContent V).map Prod.fst =
      ["selected_mlp_submatrix", "selected_attention_submatrix"]) := by
  have hd := dumpedOf_eq ext
  refine ⟨?_, ?_, ?_, ?_, by simp⟩
  · rw [mem_trace_iff]
    refine Or.inr (Or.inr (Or.inr (Or.inr (Or.inr (Or.inr (Or.inr
      (Or.inr ?_)))))))
    rw [hd]
    rfl
  · intro p c hmem
    obtain ⟨hp, hc⟩ := fileWrite_mem ext fs p c hmem
    exact ⟨hp, hc.trans hd⟩
  · rw [main_run_eq]
    simp [filePathOf, hd]
  · intro p hp
    rw [main_run_eq]
    have hp' : ¬ p = filePathOf ext := hp
    simp [hp']

/-- C2 witness. -/
theorem main_writes_selected_blocks_json_witness :
    ((os_path_join (targsOf extDemo).output_dir "selected_blocks.json" =
        os_path_join (targsOf extDemo).output_dir "selected_blocks.json" ∧
      ([("selected_mlp_submatrix",
          stringifyKeys extDemo.pyStr (selectedMlpOf extDemo)),
        ("selected_attention_submatrix",
          stringifyKeys extDemo.pyStr (selectedAttentionOf extDemo))] :
         JContent Nat) =
        [("selected_mlp_submatrix",
           stringifyKeys extDemo.pyStr (selectedMlpOf extDemo)),
         ("selected_attention_submatrix",
           stringifyKeys extDemo.pyStr (selectedAttentionOf extDemo))]) ∧
     (main extDemo fsDemo).fsAfter "zzz" = fsDemo "zzz") := by
  have h := main_writes_selected_blocks_json extDemo fsDemo
  exact ⟨h.2.1 _ _ h.1, h.2.2.2.1 "zzz" (by decide)⟩

/-- C5: the mapping serialized under each module type's key is exactly the
mapping the corresponding `select_submatrix` call returned, with each key
`k` replaced by `str(k)`; under pairwise-distinct key strings this keeps
every entry, in order, with every value unchanged. -/
theorem main_serializes_returned_selection
    (ext : Externals Tok Mdl D Trainer G K V) (fs : FS V) :
    ((targsOf ext).downsample_mlp_blocks_ratio ≥ 0 →
      ∀ (p : String) (c : JContent V),
        Event.fileWrite p c ∈ (main ext fs).trace →
          dictGet c "selected_mlp_submatrix" =
            some (stringifyKeys ext.pyStr (ext.select_submatrix (modelOf ext)
              (ext.warmup_mlp_grads (trainerOf ext))
              (ext.global_step (trainerOf ext))
              (targsOf ext).enable_analysis (targsOf ext).output_dir
              (targsOf ext).downsample_mlp_blocks_ratio ModuleType.MLP))) ∧
    ((targsOf ext).downsample_attention_blocks_ratio ≥ 0 →
      ∀ (p : String) (c : JContent V),
        Event.fileWrite p c ∈ (main ext fs).trace →
          dictGet c "selected_attention_submatrix" =
            some (stringifyKeys ext.pyStr (ext.select_submatrix (modelOf ext)
              (ext.warmup_attention_grads (trainerOf ext))
              (ext.global_step (trainerOf ext))
              (targsOf ext).enable_analysis (targsOf ext).output_dir
              (targsOf ext).downsample_attention_blocks_ratio
              ModuleType.ATTENTION))) ∧
    (∀ d : PyDict K V,
      (d.map fun kv => ext.pyStr kv.1).Nodup →
        stringifyKeys ext.pyStr d = d.map fun kv => (ext.pyStr kv.1, kv.2)) := by
  have hne : ¬ ("selected_mlp_submatrix" : String) =
      "selected_attention_submatrix" := by decide
  refine ⟨?_, ?_, fun d hd => stringifyKeys_eq_map ext.pyStr d hd⟩
  · intro hr p c hmem
    obtain ⟨_, hc⟩ := fileWrite_mem ext fs p c hmem
    rw [hc, dumpedOf_eq]
    simp [dictGet, selectedMlpOf, hr]
  · intro hr p c hmem
    obtain ⟨_, hc⟩ := fileWrite_mem ext fs p c hmem
    rw [hc, dumpedOf_eq]
    simp [dictGet, hne, selectedAttentionOf, hr]

/-- C5 witness. -/
theorem main_serializes_returned_selection_witness :
    dictGet (dumpedOf extDemo) "selected_mlp_submatrix" =
      some (stringifyKeys extDemo.pyStr (extDemo.select_submatrix
        (modelOf extDemo) (extDemo.warmup_mlp_grads (trainerOf extDemo))
        (extDemo.global_step (trainerOf extDemo))
        (targsOf extDemo).enable_analysis (targsOf extDemo).output_dir
        (targsOf extDemo).downsample_mlp_blocks_ratio ModuleType.MLP)) := by
  have h := main_serializes_returned_selection extDemo fsDemo
  exact h.1 (by decide) (filePathOf extDemo) (dumpedOf extDemo)
    (by rw [mem_trace_iff]; exact Or.inr (Or.inr (Or.inr (Or.inr (Or.inr
      (Or.inr (Or.inr (Or.inr rfl))))))))

/-- C6: `main` invokes the selection for a module type exactly when that
module type's downsample ratio is nonnegative; when a ratio is negative the
empty mapping is serialized under that module type's key, and the JSON
file is written in every case. -/
theorem main_selection_guard (ext : Externals Tok Mdl D Trainer G K V)
    (fs : FS V) :
    ((∃ (mdl : Mdl) (g : G) (s : Nat) (en : Bool) (od : String) (r : Rat),
        Event.selectCall mdl g s en od r ModuleType.MLP ∈
          (main ext fs).trace) ↔
      (targsOf ext).downsample_mlp_blocks_ratio ≥ 0) ∧
    ((∃ (mdl : Mdl) (g : G) (s : Nat) (en : Bool) (od : String) (r : Rat),
        Event.selectCall mdl g s en od r ModuleType.ATTENTION ∈
          (main ext fs).trace) ↔
      (targsOf ext).downsample_attention_blocks_ratio ≥ 0) ∧
    ((targsOf ext).downsample_mlp_blocks_ratio < 0 →
      ∀ (p : String) (c : JContent V),
        Event.fileWrite p c ∈ (main ext fs).trace →
          dictGet c "selected_mlp_submatrix" =
            some ([] : PyDict String V)) ∧
    ((targsOf ext).downsample_attention_blocks_ratio < 0 →
      ∀ (p : String) (c : JContent V),
        Event.fileWrite p c ∈ (main ext fs).trace →
          dictGet c "selected_attention_submatrix" =
            some ([] : PyDict String V)) ∧
    (∃ (p : String) (c : JContent V),
      Event.fileWrite p c ∈ (main ext fs).trace) := by
  have hne : ¬ ("selected_mlp_submatrix" : String) =
      "selected_attention_submatrix" := by decide
  refine ⟨?_, ?_, ?_, ?_, ?_⟩
  · constructor
    · rintro ⟨mdl, g, s, en, od, r, hmem⟩
      rw [mem_trace_iff] at hmem
      rcases hmem with h | h | h | h | h | h | ⟨hc, h⟩ | ⟨hc, h⟩ | h
      · exact Event.noConfusion h
      · exact Event.noConfusion h
      · exact Event.noConfusion h
      · exact Event.noConfusion h
      · exact Event.noConfusion h
      · exact Event.noConfusion h
      · exact hc
      · injection h with h1 h2 h3 h4 h5 h6 h7
        exact ModuleType.noConfusion h7
      · exact Event.noConfusion h
    · intro h
      refine ⟨modelOf ext, ext.warmup_mlp_grads (trainerOf ext),
        ext.global_step (trainerOf ext), (targsOf ext).enable_analysis,
        (targsOf ext).output_dir,
        (targsOf ext).downsample_mlp_blocks_ratio, ?_⟩
      rw [mem_trace_iff]
      exact Or.inr (Or.inr (Or.inr (Or.inr (Or.inr (Or.inr
        (Or.inl ⟨h, rfl⟩))))))
  · constructor
    · rintro ⟨mdl, g, s, en, od, r, hmem⟩
      rw [mem_trace_iff] at hmem
      rcases hmem with h | h | h | h | h | h | ⟨hc, h⟩ | ⟨hc, h⟩ | h
      · exact Event.noConfusion h
      · exact Event.noConfusion h
      · exact Event.noConfusion h
      · exact Event.noConfusion h
      · exact Event.noConfusion h
      · exact Event.noConfusion h
      · injection h with h1 h2 h3 h4 h5 h6 h7
        exact ModuleType.noConfusion h7
      · exact hc
      · exact Event.noConfusion h
    · intro h
      refine ⟨modelOf ext, ext.warmup_attention_grads (trainerOf ext),
        ext.global_step (trainerOf ext), (targsOf ext).enable_analysis,
        (targsOf ext).output_dir,
        (targsOf ext).downsample_attention_blocks_ratio, ?_⟩
      rw [mem_trace_iff]
      exact Or.inr (Or.inr (Or.inr (Or.inr (Or.inr (Or.inr (Or.inr
        (Or.inl ⟨h, rfl⟩)))))))
  · intro hr p c hmem
    obtain ⟨_, hc⟩ := fileWrite_mem ext fs p c hmem
    rw [hc, dumpedOf_eq]
    have hnr := not_le.mpr hr
    simp [dictGet, selectedMlpOf, hnr, stringifyKeys]
  · intro hr p c hmem
    obtain ⟨_, hc⟩ := fileWrite_mem ext fs p c hmem
    rw [hc, dumpedOf_eq]
    have hnr := not_le.mpr hr
    simp [dictGet, hne, selectedAttentionOf, hnr, stringifyKeys]
  · refine ⟨filePathOf ext, dumpedOf ext, ?_⟩
    rw [mem_trace_iff]
    exact Or.inr (Or.inr (Or.inr (Or.inr (Or.inr (Or.inr (Or.inr
      (Or.inr rfl)))))))

/-- C6 witness. -/
theorem main_selection_guard_witness :
    dictGet (dumpedOf extDemoNeg) "selected_mlp_submatrix" =
      some ([] : PyDict String Nat) := by
  have h := main_selection_guard extDemoNeg fsDemo
  exact h.2.2.1 (by decide) (filePathOf extDemoNeg) (dumpedOf extDemoNeg)
    (by rw [mem_trace_iff]; exact Or.inr (Or.inr (Or.inr (Or.inr (Or.inr
      (Or.inr (Or.inr (Or.inr rfl))))))))

end MainClaims

end SMTScript
